import Mathlib

/-!
Shallow embedding of `src/server.py`, an MCP server exposing two tools:
`web_search` (Tavily search) and `append_to_sheet` (Google Sheets append),
together with its lazily-initialized Sheets client factory and proxy
resolution.  Python runtime values that the handlers inspect dynamically are
modelled by `PyObj`; Python truthiness and the `x or y` idiom are modelled
explicitly; the network backends and the filesystem are passed in as
functions; effects (network calls, credential-file reads, proxy resolutions)
are counted explicitly so that claims about "zero network calls" are statable.

Error taxonomy: the spec names `ConfigurationError` / `InvalidArgument` /
`NotFoundError`; the code raises `RuntimeError` / `ValueError` /
`FileNotFoundError` in those roles.  We use the spec's names for the
constructors and keep the code's message strings.
-/

/-- Dynamic Python values, as far as the handlers inspect them. -/
inductive PyObj where
  | pyStr : String → PyObj
  | pyInt : Int → PyObj
  | pyNone : PyObj
  | pyList : List PyObj → PyObj

/-- Python truthiness of a `PyObj` (`bool(x)`). -/
def pyTruthy : PyObj → Bool
  | PyObj.pyStr s => s != ""
  | PyObj.pyInt n => n != 0
  | PyObj.pyNone => false
  | PyObj.pyList xs => !xs.isEmpty

/-- `isinstance(x, str)`. -/
def isStr : PyObj → Bool
  | PyObj.pyStr _ => true
  | _ => false

/-- `isinstance(x, list)`. -/
def isList : PyObj → Bool
  | PyObj.pyList _ => true
  | _ => false

/-- The string payload of a `PyObj` known to be a string. -/
def strVal : PyObj → String
  | PyObj.pyStr s => s
  | _ => ""

/-- The list payload of a `PyObj` known to be a list. -/
def listVal : PyObj → List PyObj
  | PyObj.pyList xs => xs
  | _ => []

/-- `int(x)` on the values the handler can receive: an int is returned as is,
a numeric string parses, anything else fails (`TypeError`/`ValueError`). -/
def coerceInt : PyObj → Option Int
  | PyObj.pyInt n => some n
  | PyObj.pyStr s => s.toInt?
  | _ => none

/-- Python `a or b` on optional environment strings: `None` and `""` are
falsy and fall through to `b`. -/
def pyOr : Option String → Option String → Option String
  | none, b => b
  | some s, b => if s = "" then b else some s

/-- Truthiness of an optional string (`None` and `""` are falsy). -/
def truthyStr : Option String → Bool
  | none => false
  | some s => s != ""

/-- Collapse an optional string to `none` when it is falsy (models guarding
with `if not x`). -/
def getTruthy : Option String → Option String
  | none => none
  | some s => if s = "" then none else some s

/-- Python `p or d` for an optional port number: `None` and `0` are falsy. -/
def pyOrNat : Option Nat → Nat → Nat
  | none, d => d
  | some 0, d => d
  | some (Nat.succ n), _ => Nat.succ n

/-- Python `x or 0` for the optional `updatedRows` integer. -/
def pyOrIntZero : Option Int → Int
  | none => 0
  | some n => n

/-- Python string slicing `s[:n]` (first `n` code points). -/
def pySlice (s : String) (n : Nat) : String := String.mk (s.data.take n)

/-- Error taxonomy of the spec, with the code's message strings.
`typeError` stands for the exception `int()` raises on a non-coercible
argument. -/
inductive MCPError where
  | configurationError : String → MCPError
  | invalidArgument : String → MCPError
  | notFoundError : String → MCPError
  | upstreamError : String → MCPError
  | typeError : String → MCPError
deriving DecidableEq

/-- A process environment: a partial map from variable names to values. -/
def Env : Type := String → Option String

/-- `TAVILY_KEY = os.environ.get("TAVILY_API_KEY")`, evaluated once at module
load: the argument is the environment AS OF PROCESS START. -/
def TAVILY_KEY (startupEnv : Env) : Option String :=
  startupEnv "TAVILY_API_KEY"

/-- One raw result item from the Tavily backend: each field may be missing
or null (`none`) or any string, including empty. -/
structure RawItem where
  title : Option String
  url : Option String
  content : Option String
deriving DecidableEq

/-- One shaped result item returned to the caller. -/
structure ResultItem where
  title : String
  url : String
  content : String
deriving DecidableEq

/-- `item.get(k) or ""`: a missing, null or empty field becomes `""`. -/
def orEmpty : Option String → String
  | none => ""
  | some s => s

/-- Shapes one backend item: `title` sliced to 300, `content` to 2000,
missing fields defaulted to the empty string (lines 99-105 of server.py). -/
def shapeItem (item : RawItem) : ResultItem :=
  ⟨pySlice (orEmpty item.title) 300, orEmpty item.url,
   pySlice (orEmpty item.content) 2000⟩

/-- The JSON body POSTed to the Tavily endpoint. -/
structure TavilyPayload where
  query : String
  search_depth : String
  max_results : Int
deriving DecidableEq

/-- The Tavily response: the `results` key may be absent. -/
structure TavilyResponse where
  results : Option (List RawItem)
deriving DecidableEq

/-- `max(1, min(int(max_results), 20))` (line 81 of server.py). -/
def clampMaxResults (m : Int) : Int := max 1 (min m 20)

/-- The structured result of `web_search`. -/
structure SearchOut where
  query : String
  results : List ResultItem
deriving DecidableEq

/-- The `web_search` tool handler (lines 62-107 of server.py).  `tavilyKey`
is the module-level `TAVILY_KEY` snapshot; `backend` is the Tavily HTTP POST.
Returns the handler outcome paired with the number of network calls made. -/
def web_search (tavilyKey : Option String)
    (backend : TavilyPayload → TavilyResponse)
    (query : PyObj) (search_depth : String) (max_results : PyObj) :
    Except MCPError SearchOut × Nat :=
  if !truthyStr tavilyKey then
    (Except.error (MCPError.configurationError "TAVILY_API_KEY is not set"), 0)
  else if !pyTruthy query || !isStr query then
    (Except.error (MCPError.invalidArgument "query must be a non-empty string"), 0)
  else
    match coerceInt max_results with
    | none =>
        (Except.error (MCPError.typeError "int() argument is not coercible"), 0)
    | some m =>
        let q := strVal query
        let payload : TavilyPayload := ⟨q, search_depth, clampMaxResults m⟩
        let data := backend payload
        let out := ((data.results.getD []).take payload.max_results.toNat).map shapeItem
        (Except.ok ⟨q, out⟩, 1)

/-- The components `urlparse` extracts from a proxy URL. -/
structure ParsedUrl where
  hostname : Option String
  port : Option Nat
  username : Option String
  password : Option String
deriving DecidableEq

/-- `httplib2.ProxyInfo` as constructed by the code. -/
structure ProxyInfo where
  proxy_type : Nat
  proxy_host : Option String
  proxy_port : Nat
  proxy_user : Option String
  proxy_pass : Option String
deriving DecidableEq

/-- `PROXY_TYPE_HTTP` (line 38 of server.py). -/
def PROXY_TYPE_HTTP : Nat := 3

/-- The `ProxyInfo(...)` constructor call (lines 129-135 of server.py):
`proxy_port=p.port or 8080`. -/
def mkProxyInfo (p : ParsedUrl) : ProxyInfo :=
  ⟨PROXY_TYPE_HTTP, p.hostname, pyOrNat p.port 8080, p.username, p.password⟩

/-- `_proxy_info_from_env` (lines 115-135 of server.py): chains the four
proxy variables with `or`, returns `None` when the chain is falsy, otherwise
parses the URL and builds a `ProxyInfo`.  `parse` is `urllib.parse.urlparse`. -/
def _proxy_info_from_env (parse : String → ParsedUrl) (env : Env) :
    Option ProxyInfo :=
  let url := pyOr (env "HTTPS_PROXY")
    (pyOr (env "https_proxy") (pyOr (env "HTTP_PROXY") (env "http_proxy")))
  match getTruthy url with
  | none => none
  | some u => some (mkProxyInfo (parse u))

/-- The cached Sheets client object: records the credential path, the proxy
configuration and the timeout it was constructed with. -/
structure SheetsService where
  keyPath : String
  proxy : Option ProxyInfo
  timeout : Nat
deriving DecidableEq

/-- Effects of one `_init_sheets_service` call: how many credential-file
reads and proxy-environment resolutions it performed. -/
structure InitEffects where
  fileReads : Nat
  proxyResolutions : Nat
deriving DecidableEq

/-- `_init_sheets_service` (lines 137-158 of server.py) as a transition on
the cache slot `_sheets_service`.  Returns the outcome, the new cache slot,
and the effects performed.  `fileExists` is `os.path.exists`. -/
def _init_sheets_service (parse : String → ParsedUrl) (env : Env)
    (fileExists : String → Bool) (st : Option SheetsService) :
    Except MCPError SheetsService × Option SheetsService × InitEffects :=
  match st with
  | some s => (Except.ok s, some s, ⟨0, 0⟩)
  | none =>
    let key_path := pyOr (env "SERVICE_ACCOUNT_FILE")
      (env "GOOGLE_APPLICATION_CREDENTIALS")
    match getTruthy key_path with
    | none =>
        (Except.error (MCPError.configurationError
          "Set GOOGLE_APPLICATION_CREDENTIALS or SERVICE_ACCOUNT_FILE to your service account JSON"),
         none, ⟨0, 0⟩)
    | some p =>
        if !fileExists p then
          (Except.error (MCPError.notFoundError
            ("Credential file not found: " ++ p)), none, ⟨0, 0⟩)
        else
          let pinfo := _proxy_info_from_env parse env
          let s : SheetsService := ⟨p, pinfo, 30⟩
          (Except.ok s, some s, ⟨1, 1⟩)

/-- The `rows` validation test of lines 174-175 of server.py:
`not isinstance(rows, list) or (rows and not isinstance(rows[0], list))`.
Only the FIRST element of a non-empty list is inspected. -/
def rowsInvalid : PyObj → Bool
  | PyObj.pyList [] => false
  | PyObj.pyList (x :: _) => !isList x
  | _ => true

/-- The `values.append` request sent to the Sheets backend
(lines 180-190 of server.py). -/
structure AppendReq where
  spreadsheetId : String
  range : String
  valueInputOption : String
  insertDataOption : String
  values : List PyObj

/-- The `updates` object of a Sheets append response; `updatedRows` may be
absent. -/
structure AppendUpdates where
  updatedRows : Option Int
deriving DecidableEq

/-- A Sheets append response; the `updates` object may be absent. -/
structure AppendResponse where
  updates : Option AppendUpdates
deriving DecidableEq

/-- `int(result.get("updates", {}).get("updatedRows") or 0)`
(line 193 of server.py). -/
def extractUpdatedRows (r : AppendResponse) : Int :=
  pyOrIntZero (r.updates.getD ⟨none⟩).updatedRows

/-- The `append_to_sheet` tool handler (lines 160-195 of server.py).
Validates inputs, obtains the cached client (constructing it on first use),
calls the backend once and extracts `updatedRows`.  Returns the outcome, the
new cache slot, and the number of backend (network) calls made. -/
def append_to_sheet (parse : String → ParsedUrl) (env : Env)
    (fileExists : String → Bool) (backend : AppendReq → AppendResponse)
    (spreadsheet_id : String) (range_name : String) (rows : PyObj)
    (st : Option SheetsService) :
    Except MCPError Int × Option SheetsService × Nat :=
  if spreadsheet_id = "" then
    (Except.error (MCPError.invalidArgument "spreadsheet_id is required"), st, 0)
  else if range_name = "" then
    (Except.error (MCPError.invalidArgument "range_name is required"), st, 0)
  else if rowsInvalid rows then
    (Except.error (MCPError.invalidArgument "rows must be a list of lists"), st, 0)
  else
    match _init_sheets_service parse env fileExists st with
    | (Except.error e, st2, _) => (Except.error e, st2, 0)
    | (Except.ok _, st2, _) =>
        let req : AppendReq :=
          ⟨spreadsheet_id, range_name, "RAW", "INSERT_ROWS", listVal rows⟩
        let resp := backend req
        (Except.ok (extractUpdatedRows resp), st2, 1)

/-! Concrete environments, stub backends and helpers used by witnesses and
counterexamples. -/

/-- An empty environment: no variable is set. -/
def envNone : Env := fun _ => none

/-- An environment where only `TAVILY_API_KEY` is set (to a test key). -/
def envTavilyOnly : Env :=
  fun v => if v = "TAVILY_API_KEY" then some "tvly_test" else none

/-- An environment where only `SERVICE_ACCOUNT_FILE` is set. -/
def envSAFOnly : Env :=
  fun v => if v = "SERVICE_ACCOUNT_FILE" then some "sa.json" else none

/-- A stub Tavily backend returning an empty results list. -/
def stubEmptyBackend : TavilyPayload → TavilyResponse := fun _ => ⟨some []⟩

/-- A stub Tavily backend returning five items. -/
def stubFiveBackend : TavilyPayload → TavilyResponse := fun _ =>
  ⟨some [⟨some "t1", some "u1", some "c1"⟩, ⟨some "t2", some "u2", some "c2"⟩,
         ⟨some "t3", some "u3", some "c3"⟩, ⟨some "t4", some "u4", some "c4"⟩,
         ⟨some "t5", some "u5", some "c5"⟩]⟩

/-- A trivial URL parse result (no component recovered). -/
def parseNone : String → ParsedUrl := fun _ => ⟨none, none, none, none⟩

/-- A filesystem on which every path exists. -/
def fileExistsAll : String → Bool := fun _ => true

/-- A filesystem on which no path exists. -/
def fileExistsNone : String → Bool := fun _ => false

/-- A concrete cached Sheets client value. -/
def svcX : SheetsService := ⟨"sa.json", none, 30⟩

/-- A stub Sheets backend whose response carries no `updates` object. -/
def stubAppendEmpty : AppendReq → AppendResponse := fun _ => ⟨none⟩

/-- An environment where only `HTTPS_PROXY` is set. -/
def envHttpsProxy : Env :=
  fun v => if v = "HTTPS_PROXY" then some "http://proxyhost" else none

/-- An environment where only the lowercase `https_proxy` is set. -/
def envLowerHttps : Env :=
  fun v => if v = "https_proxy" then some "http://p2" else none

/-! Helper lemmas shared by several developments below. -/

/-- Slicing bounds the length: `(s[:n]).length ≤ n`. -/
theorem pySlice_length_le (s : String) (n : Nat) : (pySlice s n).length ≤ n := by
  show (s.data.take n).length ≤ n
  exact List.length_take_le n s.data

/-- Slicing a string already within the limit returns it unchanged. -/
theorem pySlice_of_le (s : String) (n : Nat) (h : s.length ≤ n) :
    pySlice s n = s := by
  unfold pySlice
  have h' : s.data.length ≤ n := h
  rw [List.take_of_length_le h']

/-! Theorems settling the claims. -/

/-- C1 counterexample: with `TAVILY_API_KEY` present at process start
(`envTavilyOnly`) but absent from the environment at call time (`envNone`),
the call does NOT fail with `ConfigurationError` and performs one network
call, because the handler consults the module-load snapshot `TAVILY_KEY`,
not the call-time environment.  This refutes the claim that the key's
presence is checked per call against the environment. -/
theorem C1_counterexample :
    envNone "TAVILY_API_KEY" = none ∧
    web_search (TAVILY_KEY envTavilyOnly) stubEmptyBackend (PyObj.pyStr "q")
      "basic" (PyObj.pyInt 5) = (Except.ok ⟨"q", []⟩, 1) :=
  ⟨rfl, rfl⟩

/-- C1 (amended): `web_search` checks the `TAVILY_KEY` value captured from
the environment at module load; every call made while that startup snapshot
is absent or empty fails with `ConfigurationError` and performs zero network
calls, whatever the other arguments are. -/
theorem C1_snapshot_key (startupEnv : Env)
    (backend : TavilyPayload → TavilyResponse) (query : PyObj) (d : String)
    (m : PyObj) (h : truthyStr (TAVILY_KEY startupEnv) = false) :
    web_search (TAVILY_KEY startupEnv) backend query d m =
      (Except.error (MCPError.configurationError "TAVILY_API_KEY is not set"), 0) := by
  simp [web_search, h]

/-- Witness for C1: with no key at startup, a concrete call fails with
`ConfigurationError` and makes zero network calls. -/
theorem C1_snapshot_key_witness :
    truthyStr (TAVILY_KEY envNone) = false ∧
    web_search (TAVILY_KEY envNone) stubEmptyBackend (PyObj.pyStr "q") "basic"
      (PyObj.pyInt 5) =
      (Except.error (MCPError.configurationError "TAVILY_API_KEY is not set"), 0) :=
  ⟨rfl, C1_snapshot_key envNone stubEmptyBackend (PyObj.pyStr "q") "basic"
    (PyObj.pyInt 5) rfl⟩

/-- C10: in `web_search` the API-key presence check precedes query
validation: whenever the key the handler consults is absent or empty, the
failure is `ConfigurationError` (with zero network calls) regardless of the
query value; and an `InvalidArgument` failure can only arise when that key
is present. -/
theorem C10_key_check_first :
    (∀ (key : Option String) (backend : TavilyPayload → TavilyResponse)
       (query : PyObj) (d : String) (m : PyObj), truthyStr key = false →
       web_search key backend query d m =
         (Except.error (MCPError.configurationError "TAVILY_API_KEY is not set"), 0))
    ∧ (∀ (key : Option String) (backend : TavilyPayload → TavilyResponse)
         (query : PyObj) (d : String) (m : PyObj) (msg : String),
         (web_search key backend query d m).1 =
           Except.error (MCPError.invalidArgument msg) → truthyStr key = true) := by
  constructor
  · intro key backend query d m h
    simp [web_search, h]
  · intro key backend query d m msg h
    by_cases hk : truthyStr key = true
    · exact hk
    · rw [Bool.not_eq_true] at hk
      simp [web_search, hk] at h

/-- Witness for C10: with the key unset and the query empty, the failure is
`ConfigurationError`; and a concrete call that fails with `InvalidArgument`
has a present key. -/
theorem C10_key_check_first_witness :
    web_search none stubEmptyBackend (PyObj.pyStr "") "basic" (PyObj.pyInt 5) =
      (Except.error (MCPError.configurationError "TAVILY_API_KEY is not set"), 0) ∧
    truthyStr (some "tvly_test") = true :=
  ⟨C10_key_check_first.1 none stubEmptyBackend (PyObj.pyStr "") "basic"
     (PyObj.pyInt 5) rfl,
   C10_key_check_first.2 (some "tvly_test") stubEmptyBackend (PyObj.pyStr "")
     "basic" (PyObj.pyInt 5) "query must be a non-empty string" rfl⟩

/-- C2: for every coercible `max_results` value coercing to integer `m`, the
effective bound both sent to the backend and used for slicing is
`max 1 (min m 20)`; out-of-range values are silently clamped (`0` to `1`,
`50` to `20`, `5` stays `5`) and the call still succeeds; only a
non-coercible value raises an error. -/
theorem C2_clamp :
    (∀ m : Int, clampMaxResults m = max 1 (min m 20))
    ∧ clampMaxResults 0 = 1 ∧ clampMaxResults 50 = 20 ∧ clampMaxResults 5 = 5
    ∧ (∀ (key : Option String) (backend : TavilyPayload → TavilyResponse)
         (q d : String) (v : PyObj) (m : Int), truthyStr key = true → q ≠ "" →
         coerceInt v = some m →
         web_search key backend (PyObj.pyStr q) d v =
           (Except.ok ⟨q, (((backend ⟨q, d, clampMaxResults m⟩).results.getD []).take
              (clampMaxResults m).toNat).map shapeItem⟩, 1))
    ∧ (∀ (key : Option String) (backend : TavilyPayload → TavilyResponse)
         (q d : String) (v : PyObj), truthyStr key = true → q ≠ "" →
         coerceInt v = none →
         web_search key backend (PyObj.pyStr q) d v =
           (Except.error (MCPError.typeError "int() argument is not coercible"), 0)) := by
  refine ⟨fun m => rfl, rfl, rfl, rfl, ?_, ?_⟩
  · intro key backend q d v m hk hq hv
    simp [web_search, hk, hq, hv, pyTruthy, isStr, strVal]
  · intro key backend q d v hk hq hv
    simp [web_search, hk, hq, hv, pyTruthy, isStr]

/-- Witness for C2: with `max_results = 0` a concrete call succeeds with the
clamped bound, and with a non-coercible `max_results` it raises. -/
theorem C2_clamp_witness :
    web_search (some "tvly_test") stubEmptyBackend (PyObj.pyStr "q") "basic"
        (PyObj.pyInt 0) =
      (Except.ok ⟨"q", (((stubEmptyBackend ⟨"q", "basic", clampMaxResults 0⟩).results.getD
         []).take (clampMaxResults 0).toNat).map shapeItem⟩, 1) ∧
    web_search (some "tvly_test") stubEmptyBackend (PyObj.pyStr "q") "basic"
        PyObj.pyNone =
      (Except.error (MCPError.typeError "int() argument is not coercible"), 0) :=
  ⟨C2_clamp.2.2.2.2.1 (some "tvly_test") stubEmptyBackend "q" "basic"
     (PyObj.pyInt 0) 0 rfl (by decide) rfl,
   C2_clamp.2.2.2.2.2 (some "tvly_test") stubEmptyBackend "q" "basic"
     PyObj.pyNone rfl (by decide) rfl⟩

/-- C3: every shaped result item has `title` length at most 300 and
`content` length at most 2000; a missing, null or empty source field becomes
the empty string; and slicing is idempotent, so a string already within its
limit is returned unchanged. -/
theorem C3_truncation :
    (∀ item : RawItem, (shapeItem item).title.length ≤ 300
       ∧ (shapeItem item).content.length ≤ 2000)
    ∧ (∀ item : RawItem, item.title = none ∨ item.title = some "" →
         (shapeItem item).title = "")
    ∧ (∀ item : RawItem, item.url = none ∨ item.url = some "" →
         (shapeItem item).url = "")
    ∧ (∀ item : RawItem, item.content = none ∨ item.content = some "" →
         (shapeItem item).content = "")
    ∧ (∀ s : String, s.length ≤ 300 → pySlice s 300 = s)
    ∧ (∀ s : String, s.length ≤ 2000 → pySlice s 2000 = s) := by
  refine ⟨?_, ?_, ?_, ?_, ?_, ?_⟩
  · intro item
    exact ⟨pySlice_length_le (orEmpty item.title) 300,
           pySlice_length_le (orEmpty item.content) 2000⟩
  · intro item h
    rcases h with h | h <;> simp [shapeItem, h, orEmpty, pySlice]
  · intro item h
    rcases h with h | h <;> simp [shapeItem, h, orEmpty]
  · intro item h
    rcases h with h | h <;> simp [shapeItem, h, orEmpty, pySlice]
  · intro s hs
    exact pySlice_of_le s 300 hs
  · intro s hs
    exact pySlice_of_le s 2000 hs

/-- Witness for C3: concrete missing/empty fields become empty strings, a
short title survives slicing unchanged, and a short content survives slicing
unchanged. -/
theorem C3_truncation_witness :
    (shapeItem ⟨none, some "", some "hello"⟩).title = "" ∧
    (shapeItem ⟨none, some "", some "hello"⟩).url = "" ∧
    (shapeItem ⟨some "t", some "u", none⟩).content = "" ∧
    pySlice "abc" 300 = "abc" ∧
    pySlice "hello" 2000 = "hello" :=
  ⟨C3_truncation.2.1 ⟨none, some "", some "hello"⟩ (Or.inl rfl),
   C3_truncation.2.2.1 ⟨none, some "", some "hello"⟩ (Or.inr rfl),
   C3_truncation.2.2.2.1 ⟨some "t", some "u", none⟩ (Or.inl rfl),
   C3_truncation.2.2.2.2.1 "abc" (by decide),
   C3_truncation.2.2.2.2.2 "hello" (by decide)⟩

/-- C4: a successful `web_search` call returns the map of the shaping
function over a take-n (i.e. order-preserving) slice of the backend's
results; the output has at most the clamped `max_results` entries and its
`i`-th entry is the shaped `i`-th backend entry. -/
theorem C4_slice (key : Option String)
    (backend : TavilyPayload → TavilyResponse) (q d : String) (m : Int)
    (hk : truthyStr key = true) (hq : q ≠ "") :
    web_search key backend (PyObj.pyStr q) d (PyObj.pyInt m) =
      (Except.ok ⟨q, (((backend ⟨q, d, clampMaxResults m⟩).results.getD []).take
         (clampMaxResults m).toNat).map shapeItem⟩, 1)
    ∧ ((((backend ⟨q, d, clampMaxResults m⟩).results.getD []).take
         (clampMaxResults m).toNat).map shapeItem).length ≤ (clampMaxResults m).toNat
    ∧ ∀ i : Nat, i < (clampMaxResults m).toNat →
        ((((backend ⟨q, d, clampMaxResults m⟩).results.getD []).take
           (clampMaxResults m).toNat).map shapeItem)[i]? =
        (((backend ⟨q, d, clampMaxResults m⟩).results.getD [])[i]?).map shapeItem := by
  refine ⟨?_, ?_, ?_⟩
  · simp [web_search, hk, hq, pyTruthy, isStr, strVal, coerceInt]
  · rw [List.length_map]
    exact List.length_take_le _ _
  · intro i hi
    rw [List.getElem?_map, List.getElem?_take_of_lt hi]

/-- Witness for C4: the end-to-end scenario of the spec — a stub backend
returning five items against `max_results = 3` yields exactly the first
three shaped items, in the backend's order. -/
theorem C4_slice_witness :
    web_search (some "tvly_test") stubFiveBackend (PyObj.pyStr "rust ownership")
        "basic" (PyObj.pyInt 3) =
      (Except.ok ⟨"rust ownership",
        (((stubFiveBackend ⟨"rust ownership", "basic", clampMaxResults 3⟩).results.getD
          []).take (clampMaxResults 3).toNat).map shapeItem⟩, 1) ∧
    (((stubFiveBackend ⟨"rust ownership", "basic", clampMaxResults 3⟩).results.getD
        []).take (clampMaxResults 3).toNat).map shapeItem =
      [⟨"t1", "u1", "c1"⟩, ⟨"t2", "u2", "c2"⟩, ⟨"t3", "u3", "c3"⟩] :=
  ⟨(C4_slice (some "tvly_test") stubFiveBackend "rust ownership" "basic" 3 rfl
      (by decide)).1,
   by decide⟩

/-- A falsy (unset or empty) left operand of `or` falls through. -/
theorem pyOr_of_falsy (a b : Option String) (ha : truthyStr a = false) :
    pyOr a b = b := by
  cases a with
  | none => rfl
  | some s =>
      simp only [truthyStr] at ha
      simp only [bne_eq_false_iff_eq] at ha
      simp [pyOr, ha]

/-- Guarding a falsy optional string with `if not x` yields `none`. -/
theorem getTruthy_falsy (a : Option String) (ha : truthyStr a = false) :
    getTruthy a = none := by
  cases a with
  | none => rfl
  | some s =>
      simp only [truthyStr] at ha
      simp only [bne_eq_false_iff_eq] at ha
      simp [getTruthy, ha]

/-- C5 counterexample: `rows = [["a"], "b"]` contains the element `"b"`,
which is not a sequence, yet validation passes (only the first element is
inspected) and the call proceeds to the backend instead of failing with
`InvalidArgument`. -/
theorem C5_counterexample :
    isList (PyObj.pyStr "b") = false ∧
    rowsInvalid (PyObj.pyList [PyObj.pyList [PyObj.pyStr "a"], PyObj.pyStr "b"]) = false ∧
    append_to_sheet parseNone envNone fileExistsAll stubAppendEmpty "X" "R"
      (PyObj.pyList [PyObj.pyList [PyObj.pyStr "a"], PyObj.pyStr "b"]) (some svcX) =
      (Except.ok 0, some svcX, 1) :=
  ⟨rfl, rfl, rfl⟩

/-- C5 (amended): `append_to_sheet` fails with `InvalidArgument` exactly
when `rows` is not a sequence, or is non-empty with a FIRST element that is
not a sequence; an empty top-level sequence is permitted, and elements after
the first are not checked. -/
theorem C5_rows_first_element :
    (∀ (parse : String → ParsedUrl) (env : Env) (fe : String → Bool)
       (backend : AppendReq → AppendResponse) (sid rn : String) (rows : PyObj)
       (st : Option SheetsService), sid ≠ "" → rn ≠ "" → rowsInvalid rows = true →
       append_to_sheet parse env fe backend sid rn rows st =
         (Except.error (MCPError.invalidArgument "rows must be a list of lists"), st, 0))
    ∧ (∀ rows : PyObj, isList rows = false → rowsInvalid rows = true)
    ∧ (∀ (x : PyObj) (xs : List PyObj),
         rowsInvalid (PyObj.pyList (x :: xs)) = !isList x)
    ∧ rowsInvalid (PyObj.pyList []) = false := by
  refine ⟨?_, ?_, fun x xs => rfl, rfl⟩
  · intro parse env fe backend sid rn rows st hs hr hrows
    simp [append_to_sheet, hs, hr, hrows]
  · intro rows h
    cases rows with
    | pyList xs => simp [isList] at h
    | pyStr s => rfl
    | pyInt n => rfl
    | pyNone => rfl

/-- Witness for C5: a non-sequence `rows` fails with `InvalidArgument`
before any client construction, and the first-element test is what the
validation computes. -/
theorem C5_rows_first_element_witness :
    append_to_sheet parseNone envNone fileExistsAll stubAppendEmpty "X" "R"
      PyObj.pyNone none =
      (Except.error (MCPError.invalidArgument "rows must be a list of lists"), none, 0) ∧
    rowsInvalid PyObj.pyNone = true ∧
    rowsInvalid (PyObj.pyList [PyObj.pyStr "a", PyObj.pyStr "b"]) =
      !isList (PyObj.pyStr "a") :=
  ⟨C5_rows_first_element.1 parseNone envNone fileExistsAll stubAppendEmpty "X" "R"
     PyObj.pyNone none (by decide) (by decide) rfl,
   C5_rows_first_element.2.1 PyObj.pyNone rfl,
   C5_rows_first_element.2.2.1 (PyObj.pyStr "a") [PyObj.pyStr "b"]⟩

/-- C6: a flat `rows = ["a","b"]` fails with `InvalidArgument` with zero
backend calls and an unchanged client cache (so no client construction);
`rows = []` passes validation and, with a cached client and a backend
response carrying no `updates` object, returns `updatedRows = 0`. -/
theorem C6_flat_and_empty :
    (∀ (parse : String → ParsedUrl) (env : Env) (fe : String → Bool)
       (backend : AppendReq → AppendResponse) (sid rn : String)
       (st : Option SheetsService), sid ≠ "" → rn ≠ "" →
       append_to_sheet parse env fe backend sid rn
         (PyObj.pyList [PyObj.pyStr "a", PyObj.pyStr "b"]) st =
         (Except.error (MCPError.invalidArgument "rows must be a list of lists"), st, 0))
    ∧ (∀ (parse : String → ParsedUrl) (env : Env) (fe : String → Bool)
         (backend : AppendReq → AppendResponse) (sid rn : String)
         (svc : SheetsService), sid ≠ "" → rn ≠ "" →
         (backend ⟨sid, rn, "RAW", "INSERT_ROWS", []⟩).updates = none →
         append_to_sheet parse env fe backend sid rn (PyObj.pyList []) (some svc) =
           (Except.ok 0, some svc, 1)) := by
  constructor
  · intro parse env fe backend sid rn st hs hr
    simp [append_to_sheet, hs, hr, rowsInvalid, isList]
  · intro parse env fe backend sid rn svc hs hr hb
    simp [append_to_sheet, hs, hr, rowsInvalid, _init_sheets_service, listVal,
          extractUpdatedRows, hb, pyOrIntZero]

/-- Witness for C6: the two concrete scenarios of the spec. -/
theorem C6_flat_and_empty_witness :
    append_to_sheet parseNone envNone fileExistsAll stubAppendEmpty "X"
      "Sheet1!A1:B" (PyObj.pyList [PyObj.pyStr "a", PyObj.pyStr "b"]) none =
      (Except.error (MCPError.invalidArgument "rows must be a list of lists"), none, 0) ∧
    append_to_sheet parseNone envNone fileExistsAll stubAppendEmpty "X"
      "Sheet1!A1:B" (PyObj.pyList []) (some svcX) = (Except.ok 0, some svcX, 1) :=
  ⟨C6_flat_and_empty.1 parseNone envNone fileExistsAll stubAppendEmpty "X"
     "Sheet1!A1:B" none (by decide) (by decide),
   C6_flat_and_empty.2 parseNone envNone fileExistsAll stubAppendEmpty "X"
     "Sheet1!A1:B" svcX (by decide) (by decide) rfl⟩

/-- C7: on the first call (empty cache) the factory resolves the credential
path from `SERVICE_ACCOUNT_FILE` first and `GOOGLE_APPLICATION_CREDENTIALS`
second; it fails with `ConfigurationError` when neither is set (truthy),
regardless of the filesystem, and with `NotFoundError` naming the resolved
path when that path does not exist; when the path exists the client is
built from it. -/
theorem C7_credential_resolution :
    (∀ (parse : String → ParsedUrl) (env : Env) (fe : String → Bool),
       truthyStr (env "SERVICE_ACCOUNT_FILE") = false →
       truthyStr (env "GOOGLE_APPLICATION_CREDENTIALS") = false →
       _init_sheets_service parse env fe none =
         (Except.error (MCPError.configurationError
           "Set GOOGLE_APPLICATION_CREDENTIALS or SERVICE_ACCOUNT_FILE to your service account JSON"),
          none, ⟨0, 0⟩))
    ∧ (∀ (parse : String → ParsedUrl) (env : Env) (fe : String → Bool) (p : String),
         env "SERVICE_ACCOUNT_FILE" = some p → p ≠ "" → fe p = false →
         _init_sheets_service parse env fe none =
           (Except.error (MCPError.notFoundError ("Credential file not found: " ++ p)),
            none, ⟨0, 0⟩))
    ∧ (∀ (parse : String → ParsedUrl) (env : Env) (fe : String → Bool) (p : String),
         env "SERVICE_ACCOUNT_FILE" = some p → p ≠ "" → fe p = true →
         _init_sheets_service parse env fe none =
           (Except.ok ⟨p, _proxy_info_from_env parse env, 30⟩,
            some ⟨p, _proxy_info_from_env parse env, 30⟩, ⟨1, 1⟩))
    ∧ (∀ (parse : String → ParsedUrl) (env : Env) (fe : String → Bool) (p : String),
         truthyStr (env "SERVICE_ACCOUNT_FILE") = false →
         env "GOOGLE_APPLICATION_CREDENTIALS" = some p → p ≠ "" → fe p = false →
         _init_sheets_service parse env fe none =
           (Except.error (MCPError.notFoundError ("Credential file not found: " ++ p)),
            none, ⟨0, 0⟩))
    ∧ (∀ (parse : String → ParsedUrl) (env : Env) (fe : String → Bool) (p : String),
         truthyStr (env "SERVICE_ACCOUNT_FILE") = false →
         env "GOOGLE_APPLICATION_CREDENTIALS" = some p → p ≠ "" → fe p = true →
         _init_sheets_service parse env fe none =
           (Except.ok ⟨p, _proxy_info_from_env parse env, 30⟩,
            some ⟨p, _proxy_info_from_env parse env, 30⟩, ⟨1, 1⟩)) := by
  refine ⟨?_, ?_, ?_, ?_, ?_⟩
  · intro parse env fe h1 h2
    simp only [_init_sheets_service]
    rw [pyOr_of_falsy _ _ h1, getTruthy_falsy _ h2]
  · intro parse env fe p h1 hp hfe
    simp [_init_sheets_service, h1, pyOr, hp, getTruthy, hfe]
  · intro parse env fe p h1 hp hfe
    simp [_init_sheets_service, h1, pyOr, hp, getTruthy, hfe]
  · intro parse env fe p h1 h2 hp hfe
    simp only [_init_sheets_service]
    rw [pyOr_of_falsy _ _ h1]
    simp [h2, getTruthy, hp, hfe]
  · intro parse env fe p h1 h2 hp hfe
    simp only [_init_sheets_service]
    rw [pyOr_of_falsy _ _ h1]
    simp [h2, getTruthy, hp, hfe]

/-- Witness for C7: neither variable set yields `ConfigurationError`; with
`SERVICE_ACCOUNT_FILE` set the missing-file and existing-file outcomes. -/
theorem C7_credential_resolution_witness :
    _init_sheets_service parseNone envNone fileExistsNone none =
      (Except.error (MCPError.configurationError
        "Set GOOGLE_APPLICATION_CREDENTIALS or SERVICE_ACCOUNT_FILE to your service account JSON"),
       none, ⟨0, 0⟩) ∧
    _init_sheets_service parseNone envSAFOnly fileExistsNone none =
      (Except.error (MCPError.notFoundError ("Credential file not found: " ++ "sa.json")),
       none, ⟨0, 0⟩) ∧
    _init_sheets_service parseNone envSAFOnly fileExistsAll none =
      (Except.ok ⟨"sa.json", _proxy_info_from_env parseNone envSAFOnly, 30⟩,
       some ⟨"sa.json", _proxy_info_from_env parseNone envSAFOnly, 30⟩, ⟨1, 1⟩) :=
  ⟨C7_credential_resolution.1 parseNone envNone fileExistsNone rfl rfl,
   C7_credential_resolution.2.1 parseNone envSAFOnly fileExistsNone "sa.json"
     rfl (by decide) rfl,
   C7_credential_resolution.2.2.1 parseNone envSAFOnly fileExistsAll "sa.json"
     rfl (by decide) rfl⟩

/-- C8: once the cache slot holds a client, every call to the factory
returns exactly that cached instance, leaves the slot unchanged, reads the
credential file zero times and resolves the proxy environment zero times. -/
theorem C8_cached_client (parse : String → ParsedUrl) (env : Env)
    (fe : String → Bool) (s : SheetsService) :
    _init_sheets_service parse env fe (some s) = (Except.ok s, some s, ⟨0, 0⟩) :=
  rfl

/-- C9: proxy resolution consults `HTTPS_PROXY`, `https_proxy`,
`HTTP_PROXY`, `http_proxy` in that order, the first variable set to a
non-empty value winning; a parsed URL without a port gets port 8080; when
none of the four variables is set the result is absent. -/
theorem C9_proxy_precedence :
    (∀ (parse : String → ParsedUrl) (env : Env) (u : String),
       env "HTTPS_PROXY" = some u → u ≠ "" →
       _proxy_info_from_env parse env = some (mkProxyInfo (parse u)))
    ∧ (∀ (parse : String → ParsedUrl) (env : Env) (u : String),
         truthyStr (env "HTTPS_PROXY") = false →
         env "https_proxy" = some u → u ≠ "" →
         _proxy_info_from_env parse env = some (mkProxyInfo (parse u)))
    ∧ (∀ (parse : String → ParsedUrl) (env : Env) (u : String),
         truthyStr (env "HTTPS_PROXY") = false →
         truthyStr (env "https_proxy") = false →
         env "HTTP_PROXY" = some u → u ≠ "" →
         _proxy_info_from_env parse env = some (mkProxyInfo (parse u)))
    ∧ (∀ (parse : String → ParsedUrl) (env : Env) (u : String),
         truthyStr (env "HTTPS_PROXY") = false →
         truthyStr (env "https_proxy") = false →
         truthyStr (env "HTTP_PROXY") = false →
         env "http_proxy" = some u → u ≠ "" →
         _proxy_info_from_env parse env = some (mkProxyInfo (parse u)))
    ∧ (∀ (parse : String → ParsedUrl) (env : Env),
         env "HTTPS_PROXY" = none → env "https_proxy" = none →
         env "HTTP_PROXY" = none → env "http_proxy" = none →
         _proxy_info_from_env parse env = none)
    ∧ (∀ p : ParsedUrl, p.port = none → (mkProxyInfo p).proxy_port = 8080) := by
  refine ⟨?_, ?_, ?_, ?_, ?_, ?_⟩
  · intro parse env u h hu
    simp [_proxy_info_from_env, h, pyOr, hu, getTruthy]
  · intro parse env u h1 h2 hu
    simp only [_proxy_info_from_env]
    rw [pyOr_of_falsy _ _ h1]
    simp [h2, pyOr, hu, getTruthy]
  · intro parse env u h1 h2 h3 hu
    simp only [_proxy_info_from_env]
    rw [pyOr_of_falsy _ _ h1, pyOr_of_falsy _ _ h2]
    simp [h3, pyOr, hu, getTruthy]
  · intro parse env u h1 h2 h3 h4 hu
    simp only [_proxy_info_from_env]
    rw [pyOr_of_falsy _ _ h1, pyOr_of_falsy _ _ h2, pyOr_of_falsy _ _ h3]
    simp [h4, getTruthy, hu]
  · intro parse env h1 h2 h3 h4
    simp [_proxy_info_from_env, h1, h2, h3, h4, pyOr, getTruthy]
  · intro p hp
    simp [mkProxyInfo, hp, pyOrNat]

/-- Witness for C9: `HTTPS_PROXY` alone wins; the lowercase `https_proxy`
is used when `HTTPS_PROXY` is unset; no variable set gives no proxy; a
parse result with no port gets port 8080. -/
theorem C9_proxy_precedence_witness :
    _proxy_info_from_env parseNone envHttpsProxy =
      some (mkProxyInfo (parseNone "http://proxyhost")) ∧
    _proxy_info_from_env parseNone envLowerHttps =
      some (mkProxyInfo (parseNone "http://p2")) ∧
    _proxy_info_from_env parseNone envNone = none ∧
    (mkProxyInfo ⟨none, none, none, none⟩).proxy_port = 8080 :=
  ⟨C9_proxy_precedence.1 parseNone envHttpsProxy "http://proxyhost" rfl (by decide),
   C9_proxy_precedence.2.1 parseNone envLowerHttps "http://p2" rfl rfl (by decide),
   C9_proxy_precedence.2.2.2.2.1 parseNone envNone rfl rfl rfl rfl,
   C9_proxy_precedence.2.2.2.2.2 ⟨none, none, none, none⟩ rfl⟩
